import Mathlib

/-!
Shallow embedding of `src/main.py`: a single-endpoint Flask proxy that
validates a request, performs one upstream GraphQL call, cleans and parses
the response and normalises `data.tagFeed.items` into a flat article list.

Modelling conventions:
* A Python string value is a Lean `String`; the raw upstream response body,
  which the cleaning step slices character by character, is a `List Char`.
* A key of a parsed JSON object is a `JField`: the key may be absent,
  present with the value `None` (JSON null), or present with a value.
  Python `d.get(k)` then yields an `Option`, with `none` standing for the
  Python value `None`.
* The two library effects the handler observes - the `requests` call and
  `json.loads` - are inputs of the handler function: an `UpstreamResult`
  enumerates the mutually exclusive outcomes the `try/except` chain
  distinguishes.
* A Python statement that raises inside the normalisation phase (e.g.
  `.get` on `None`) is an `Except.error`; the handler's catch-all turns it
  into the 500 response.
-/

namespace Medium

/-- A field of a parsed JSON object as Python sees it: the key may be
absent, present with value `None` (JSON null), or present with a value. -/
inductive JField (α : Type) where
  | absent : JField α
  | null : JField α
  | val : α → JField α
deriving DecidableEq, Repr

/-- Python `d.get(k)` with no default: `None` when the key is absent or the
stored value is null. -/
def JField.get {α : Type} : JField α → Option α
  | .absent => none
  | .null => none
  | .val a => some a

/-- Python `d.get(k, d0)` with a plain default `d0`: the default applies
only when the key is absent; a stored null is returned as `None`. -/
def JField.getD {α : Type} (f : JField α) (d0 : α) : Option α :=
  match f with
  | .absent => some d0
  | .null => none
  | .val a => some a

/-- Python `d.get(k, d0)` where the default is itself an optional Python
value (used at line 175 for `post_data.get("id", unique_slug)`). -/
def JField.getOD {α : Type} (f : JField α) (d0 : Option α) : Option α :=
  match f with
  | .absent => d0
  | .null => none
  | .val a => some a

/-- Python truthiness of a string-or-None value: `None` and the empty
string are falsy. -/
def pyTruthy : Option String → Bool
  | none => false
  | some s => !s.isEmpty

/-- Python f-string rendering of a string-or-None value: `None` prints as
the four characters `None`. -/
def pyRepr : Option String → String
  | none => "None"
  | some s => s

/-- The `creator` object selected by the GraphQL query. -/
structure Creator where
  id : JField String := .absent
  name : JField String := .absent
  username : JField String := .absent
deriving DecidableEq, Repr

/-- The `post` object selected by the GraphQL query. `extraKeys` records
whether the dict holds keys beyond the selected ones; only the Python
truthiness of the dict depends on it. -/
structure Post where
  id : JField String := .absent
  title : JField String := .absent
  mediumUrl : JField String := .absent
  uniqueSlug : JField String := .absent
  creator : JField Creator := .absent
  extraKeys : Bool := false
deriving DecidableEq, Repr

/-- Python falsiness of the post dict at line 156 (`if not post_data`): an
empty dict is falsy. -/
def Post.isEmptyDict (p : Post) : Bool :=
  decide (p.id = .absent) && decide (p.title = .absent)
    && decide (p.mediumUrl = .absent) && decide (p.uniqueSlug = .absent)
    && decide (p.creator = .absent) && !p.extraKeys

/-- One element of `data.tagFeed.items`. -/
structure Item where
  feedId : JField String := .absent
  post : JField Post := .absent
deriving DecidableEq, Repr

/-- One element of the `articles` output list, as built at lines 183-187.
Title and author are Python values that can be `None` (a stored null
survives `.get` with a default). -/
structure Article where
  title : Option String
  author : Option String
  link : String
deriving DecidableEq, Repr

/-- Value of `post_data.get("creator", ...)` with the empty-dict default
(lines 162 and 168): `none` when the creator field is explicitly null, in
which case the chained `.get("name", ...)` raises `AttributeError`. -/
def creatorDict : JField Creator → Option Creator
  | .absent => some {}
  | .null => none
  | .val c => some c

/-- Lines 164-177: the value of `article_link` after the fallback chain.
`cd` is the creator dict; the code re-reads it at line 168 with
`.get("creator", ...)`, which yields the same dict that line 162 resolved
(a null creator already raised there). -/
def fallbackLink (feed_id : Option String) (p : Post) (cd : Creator) : Option String :=
  let article_link := p.mediumUrl.get
  if pyTruthy article_link then article_link
  else
    let unique_slug := p.uniqueSlug.get
    let author_username := cd.username.get
    if pyTruthy unique_slug then
      if pyTruthy author_username then
        some ("https://" ++ pyRepr author_username ++ ".medium.com/" ++ pyRepr unique_slug)
      else
        some ("https://medium.com/p/" ++ pyRepr (p.id.getOD unique_slug))
    else if pyTruthy feed_id then
      some ("https://medium.com/p/" ++ pyRepr feed_id)
    else article_link

/-- Lines 164-180: the article link, including the final guard of lines
179-180 that replaces a still-falsy link with the diagnostic placeholder. -/
def buildLink (feed_id : Option String) (p : Post) (cd : Creator) : String :=
  if pyTruthy (fallbackLink feed_id p cd) then pyRepr (fallbackLink feed_id p cd)
  else "Link construction failed (feedId: " ++ pyRepr feed_id
    ++ ", postId: " ++ pyRepr p.id.get ++ ")"

/-- One iteration of the items loop (lines 154-187): `ok none` when the
item is skipped by the `continue`, `error` when the iteration raises (a
creator field that is explicitly null). -/
def processItem (item : Item) : Except Unit (Option Article) :=
  match item.post with
  | .absent => .ok none
  | .null => .ok none
  | .val p =>
    if p.isEmptyDict then .ok none
    else
      let feed_id := item.feedId.get
      let title := p.title.getD "Untitled"
      match creatorDict p.creator with
      | none => .error ()
      | some cd =>
        let author_name := cd.name.getD "Unknown Author"
        .ok (some { title := title, author := author_name, link := buildLink feed_id p cd })

/-- The whole items loop: items processed in order, a skipped item
contributing nothing; any raising iteration aborts the loop (the catch-all
turns it into the 500 response). -/
def processItems : List Item → Except Unit (List Article)
  | [] => .ok []
  | item :: rest =>
    match processItem item with
    | .error e => .error e
    | .ok a? =>
      match processItems rest with
      | .error e => .error e
      | .ok tail =>
        .ok (match a? with
          | none => tail
          | some a => a :: tail)

/-- The `tagFeed` object of the parsed payload. -/
structure TagFeedObj where
  items : JField (List Item) := .absent
deriving DecidableEq, Repr

/-- The `data` object of the parsed payload. -/
structure DataObj where
  tagFeed : JField TagFeedObj := .absent
deriving DecidableEq, Repr

/-- The parsed upstream payload: the top-level `errors` key and the
`data.tagFeed.items` path. -/
structure Payload where
  errors : JField (List String) := .absent
  data : JField DataObj := .absent
deriving DecidableEq, Repr

/-- Lines 151-152: `data_from_medium.get("data", ...).get("tagFeed", ...)
.get("items", [])` followed by `len(items)`. An absent segment falls back
to the default; a null segment makes the chained `.get` (or `len`) raise. -/
def extractItems (pl : Payload) : Except Unit (List Item) :=
  match pl.data with
  | .null => .error ()
  | .absent => .ok []
  | .val d =>
    match d.tagFeed with
    | .null => .error ()
    | .absent => .ok []
    | .val tf =>
      match tf.items with
      | .null => .error ()
      | .absent => .ok []
      | .val l => .ok l

/-- The client request body object, with the two keys the handler reads. -/
structure ReqBody where
  tagSlug : JField String := .absent
  mode : JField String := .absent
deriving DecidableEq, Repr

/-- The parsed request body as the handler observes it: `badJson` when
`request.get_json()` raises, `emptyJson` when it returns a falsy value (no
body, or an empty object), `dict` for a truthy JSON object. -/
inductive BodyInput where
  | badJson
  | emptyJson
  | dict (b : ReqBody)
deriving DecidableEq, Repr

/-- Outcome of the single upstream POST as the `try/except` chain observes
it: one of the `requests` exceptions, or a 2xx/3xx response whose cleaned
body either parsed (`Except.ok`) or raised `json.JSONDecodeError`
(`Except.error`, carrying the `str(e)` detail). -/
inductive UpstreamResult where
  | timeout
  | netError (details : String)
  | httpError (status : Option Nat) (details : String)
  | ok (parsed : Except String Payload)

/-- The JSON body of a handler response. -/
inductive RespBody where
  | err (error : String)
  | errDetails (error : String) (details : String)
  | errGraphQL (error : String) (details : List String)
  | articles (l : List Article)
deriving DecidableEq, Repr

/-- A handler response: HTTP status and JSON body. -/
structure Resp where
  status : Nat
  body : RespBody
deriving DecidableEq, Repr

/-- Model of Python `str.strip()` with no argument: removes leading and
trailing whitespace characters. -/
def pyStrip (s : String) : String :=
  ⟨((s.data.dropWhile Char.isWhitespace).reverse.dropWhile Char.isWhitespace).reverse⟩

/-- Model of Python `str.upper()` (the recognised mode names are ASCII). -/
def pyUpper (s : String) : String :=
  ⟨s.data.map Char.toUpper⟩

/-- Line 82: the six recognised feed modes. -/
def valid_modes : List String :=
  ["HOT", "NEW", "TOP_ALL_TIME", "TOP_MONTH", "TOP_WEEK", "TOP_YEAR"]

/-- Line 42: the anti-JSON-hijacking preamble Medium puts in front of
GraphQL response bodies. -/
def mediumPreamble : List Char := "])\x7dwhile(1);</x>".data

/-- Lines 40-45, `clean_medium_response`: drop the preamble once when the
body starts with it (Python `text[len(p):]` slices by characters). -/
def clean_medium_response (text : List Char) : List Char :=
  if mediumPreamble.isPrefixOf text then text.drop mediumPreamble.length
  else text

/-- Lines 215-219: the catch-all response for an unexpected exception. -/
def internal_error_resp : Resp :=
  ⟨500, .errDetails "An unexpected internal server error occurred." "Please check server logs."⟩

/-- Lines 150-190: extract the item list, run the loop, answer 200; a
raised exception anywhere in this phase falls to the catch-all 500. -/
def normalize_and_respond (pl : Payload) : Resp :=
  match extractItems pl with
  | .error _ => internal_error_resp
  | .ok items =>
    match processItems items with
    | .error _ => internal_error_resp
    | .ok arts => ⟨200, .articles arts⟩

/-- Lines 53-219, `get_tag_feed_handler`, as a function of the configured
API key, the parsed request body, and the outcome of the one upstream call
(which the code only performs after all validation gates pass: the
`requests.post` of line 131 sits after them in the source). -/
def get_tag_feed_handler (apiKey : Option String) (body : BodyInput)
    (upstream : UpstreamResult) : Resp :=
  if !pyTruthy apiKey then
    ⟨500, .err "Server configuration error: API key missing."⟩
  else
    match body with
    | .badJson => ⟨400, .err "Invalid JSON format in request body."⟩
    | .emptyJson => ⟨400, .err "No JSON data provided in request body or invalid JSON format."⟩
    | .dict b =>
      let tag_slug := b.tagSlug.get
      let mode0 := b.mode.get
      if !pyTruthy tag_slug then
        ⟨400, .err "Missing \x27tagSlug\x27 in request body."⟩
      else if !pyTruthy mode0 then
        ⟨400, .err "Missing \x27mode\x27 in request body."⟩
      else
        let mode := pyUpper (pyStrip (pyRepr mode0))
        if !valid_modes.contains mode then
          ⟨400, .err ("Invalid mode. Must be one of: " ++ String.intercalate ", " valid_modes)⟩
        else
          match upstream with
          | .httpError st d =>
            ⟨st.getD 503, .errDetails "Failed to communicate effectively with Medium API." d⟩
          | .timeout =>
            ⟨504, .errDetails "Request to Medium API timed out." "The upstream server took too long to respond."⟩
          | .netError d =>
            ⟨503, .errDetails "Network error connecting to Medium API. Check internet connection." d⟩
          | .ok (.error d) =>
            ⟨502, .errDetails "Invalid or unexpected response format from Medium." d⟩
          | .ok (.ok pl) =>
            match pl.errors with
            | .val (e :: es) =>
              ⟨400, .errGraphQL "GraphQL error(s) received from Medium." (e :: es)⟩
            | _ => normalize_and_respond pl

/-- The request body passes all three validation gates of lines 74-85. -/
def validReqBody (b : ReqBody) : Bool :=
  pyTruthy b.tagSlug.get && pyTruthy b.mode.get
    && valid_modes.contains (pyUpper (pyStrip (pyRepr b.mode.get)))

/-! Helper lemmas shared by the claim theorems. -/

theorem isPrefixOf_append_self (s t : List Char) : s.isPrefixOf (s ++ t) = true := by
  induction s with
  | nil => simp [List.isPrefixOf]
  | cons c cs ih => simp [List.isPrefixOf, ih]

theorem prepend_ne_empty (s t : String) (h : s.length ≠ 0) : s ++ t ≠ "" := by
  intro he
  have hl := congrArg String.length he
  rw [ String.length_append] at hl
  simp only [String.length_empty] at hl
  omega

theorem pyTruthy_some_iff (s : String) : pyTruthy (some s) = true ↔ s ≠ "" := by
  show (!s.isEmpty) = true ↔ s ≠ ""
  rw [ Bool.not_eq_true', Bool.eq_false_iff]
  exact not_congr (String.isEmpty_iff s)

/-- Claim C4: the cleaning step removes the exact literal preamble when the
body starts with it, and returns any body that does not start with it
unchanged. (The handler applies it at line 140, before the `json.loads` of
line 141.) -/
theorem c4_clean_preamble :
    (∀ s : List Char, clean_medium_response (mediumPreamble ++ s) = s)
    ∧ (∀ t : List Char, mediumPreamble.isPrefixOf t = false → clean_medium_response t = t) := by
  constructor
  · intro s
    simp [clean_medium_response, isPrefixOf_append_self, List.drop_left]
  · intro t h
    simp [clean_medium_response, h]

/-- Witness for C4: both conjuncts of `c4_clean_preamble` evaluated at
concrete bodies. -/
theorem c4_clean_preamble_witness :
    clean_medium_response (mediumPreamble ++ "abc".data) = "abc".data
    ∧ (mediumPreamble.isPrefixOf "abc".data = false
        ∧ clean_medium_response ("abc".data) = "abc".data) :=
  ⟨c4_clean_preamble.1 ("abc".data),
    by decide,
    c4_clean_preamble.2 ("abc".data) (by decide)⟩

/-- Claim C9: cleaning removes at most one occurrence of the preamble per
invocation: cleaning `preamble ++ t` yields exactly `t`, so a body that
begins with the preamble twice still begins with it once after one
cleaning, and cleaning that result changes it again (the function is not
idempotent on such inputs). -/
theorem c9_clean_single_removal (t : List Char) :
    clean_medium_response (mediumPreamble ++ t) = t
    ∧ clean_medium_response (mediumPreamble ++ (mediumPreamble ++ t)) = mediumPreamble ++ t
    ∧ mediumPreamble.isPrefixOf
        (clean_medium_response (mediumPreamble ++ (mediumPreamble ++ t))) = true
    ∧ clean_medium_response
        (clean_medium_response (mediumPreamble ++ (mediumPreamble ++ t)))
        ≠ clean_medium_response (mediumPreamble ++ (mediumPreamble ++ t)) := by
  have h1 : clean_medium_response (mediumPreamble ++ t) = t := by
    simp [clean_medium_response, isPrefixOf_append_self, List.drop_left]
  have h2 : clean_medium_response (mediumPreamble ++ (mediumPreamble ++ t))
      = mediumPreamble ++ t := by
    simp [clean_medium_response, isPrefixOf_append_self, List.drop_left]
  refine ⟨h1, h2, ?_, ?_⟩
  · rw [h2]
    exact isPrefixOf_append_self mediumPreamble t
  · rw [h2, h1]
    intro he
    have hl := congrArg List.length he
    simp [List.length_append, mediumPreamble] at hl
    omega

/-! Claim C1: the link fallback chain. -/

/-- Wording of claim C1: a field is "present" when the key exists at all
(with any value, null included). -/
def present {α : Type} : JField α → Bool
  | .absent => false
  | _ => true

/-- Wording of claim C1 clause 1: present with a non-empty string value. -/
def presentNonEmpty : JField String → Bool
  | .val s => !s.isEmpty
  | _ => false

/-- Link resolution exactly as claim C1 words it, first match wins;
`username` is the `post.creator.username` field. Clauses 2-4 fire on mere
presence of `uniqueSlug`, `username` and `feedId`. -/
def claimLink (feedId : JField String) (p : Post) (username : JField String) : String :=
  if presentNonEmpty p.mediumUrl then pyRepr p.mediumUrl.get
  else if present p.uniqueSlug && present username then
    "https://" ++ pyRepr username.get ++ ".medium.com/" ++ pyRepr p.uniqueSlug.get
  else if present p.uniqueSlug then
    "https://medium.com/p/"
      ++ (if present p.id then pyRepr p.id.get else pyRepr p.uniqueSlug.get)
  else if present feedId then
    "https://medium.com/p/" ++ pyRepr feedId.get
  else
    "Link construction failed (feedId: " ++ pyRepr feedId.get
      ++ ", postId: " ++ pyRepr p.id.get ++ ")"

/-- Claim C1 amended: clauses 2-4 require the fields to be truthy (present
with a non-null, non-empty string) rather than merely present, matching
Python truthiness; in clause 3 the id key wins whenever it is present, a
null id rendering as the string `None`. -/
def amendedLink (feedId : JField String) (p : Post) (username : JField String) : String :=
  if pyTruthy p.mediumUrl.get then pyRepr p.mediumUrl.get
  else if pyTruthy p.uniqueSlug.get && pyTruthy username.get then
    "https://" ++ pyRepr username.get ++ ".medium.com/" ++ pyRepr p.uniqueSlug.get
  else if pyTruthy p.uniqueSlug.get then
    "https://medium.com/p/" ++ pyRepr (p.id.getOD p.uniqueSlug.get)
  else if pyTruthy feedId.get then
    "https://medium.com/p/" ++ pyRepr feedId.get
  else
    "Link construction failed (feedId: " ++ pyRepr feedId.get
      ++ ", postId: " ++ pyRepr p.id.get ++ ")"

theorem pyTruthy_prepend (s t : String) (h : s.length ≠ 0) : pyTruthy (some (s ++ t)) = true := by
  rw [ pyTruthy_some_iff]
  exact prepend_ne_empty s t h

theorem pyRepr_some (s : String) : pyRepr (some s) = s := rfl

theorem pyTruthy_some (s : String) : pyTruthy (some s) = !s.isEmpty := rfl

theorem medium_sub_link_truthy (u s : String) :
    pyTruthy (some ("https://" ++ u ++ ".medium.com/" ++ s)) = true := by
  apply pyTruthy_prepend
  rw [ String.length_append, String.length_append]
  have h1 : "https://".length = 8 := rfl
  omega

/-- The code's link construction agrees everywhere with the amended chain. -/
theorem buildLink_eq_amendedLink (feedId : JField String) (p : Post) (cd : Creator) :
    buildLink feedId.get p cd = amendedLink feedId p cd.username := by
  unfold buildLink fallbackLink amendedLink
  cases hmu : pyTruthy p.mediumUrl.get with
  | true => simp [hmu]
  | false =>
    cases hus : pyTruthy p.uniqueSlug.get with
    | true =>
      cases hun : pyTruthy cd.username.get with
      | true => simp [hmu, hus, hun, medium_sub_link_truthy, pyRepr_some]
      | false =>
        have ht := pyTruthy_prepend "https://medium.com/p/"
          (pyRepr (p.id.getOD p.uniqueSlug.get)) (by decide)
        simp [hmu, hus, hun, ht, pyRepr_some]
    | false =>
      cases hfi : pyTruthy feedId.get with
      | true =>
        have ht := pyTruthy_prepend "https://medium.com/p/" (pyRepr feedId.get) (by decide)
        simp [hmu, hus, hfi, ht, pyRepr_some]
      | false => simp [hmu, hus, hfi]

def c1CexCreator : Creator := { username := .val "" }

def c1CexPost : Post := { uniqueSlug := .val "my-slug", creator := .val c1CexCreator }

def c1CexItem : Item := { post := .val c1CexPost }

/-- Claim C1 as stated fails: with `uniqueSlug` present, no `mediumUrl`,
and `creator.username` present but empty, clause 2 of the claim demands
`https://.medium.com/my-slug` while the code emits
`https://medium.com/p/my-slug` (the empty username is falsy, so the code
falls through to the no-username branch). -/
theorem c1_counterexample :
    processItem c1CexItem
      = .ok (some ⟨some "Untitled", some "Unknown Author", "https://medium.com/p/my-slug"⟩)
    ∧ claimLink c1CexItem.feedId c1CexPost c1CexCreator.username
      = "https://.medium.com/my-slug"
    ∧ ("https://medium.com/p/my-slug" : String) ≠ "https://.medium.com/my-slug" :=
  ⟨rfl, rfl, by decide⟩

/-- Claim C1, amended: for every item whose post is a truthy object and
whose creator field resolves to a dict (it is not explicitly null - that
case aborts the request, see C10), the emitted article's link follows the
first-match-wins chain of `amendedLink`: (1) truthy `mediumUrl`; (2) truthy
`uniqueSlug` and truthy `username` give the subdomain URL; (3) truthy
`uniqueSlug` alone gives `https://medium.com/p/` followed by the id value
when the id key is present (null rendering as `None`), else the slug; (4)
truthy `feedId` gives `https://medium.com/p/feedId`; (5) otherwise the
diagnostic placeholder embedding `feedId` and `post.id` - and the article
is still emitted. -/
theorem c1_link_priority_amended (item : Item) (p : Post) (cd : Creator)
    (hp : item.post = .val p) (hne : p.isEmptyDict = false)
    (hc : creatorDict p.creator = some cd) :
    ∃ a, processItem item = .ok (some a)
      ∧ a.link = amendedLink item.feedId p cd.username := by
  have h : processItem item
      = .ok (some ⟨p.title.getD "Untitled", cd.name.getD "Unknown Author",
          buildLink item.feedId.get p cd⟩) := by
    simp [processItem, hp, hne, hc]
  exact ⟨_, h, buildLink_eq_amendedLink item.feedId p cd⟩

def c1WitCreator : Creator := { username := .val "alice" }

def c1WitPost : Post := { uniqueSlug := .val "my-slug", creator := .val c1WitCreator }

def c1WitItem : Item := { post := .val c1WitPost }

/-- Witness for C1: the amended theorem applied to a concrete item, whose
link evaluates to the clause-2 subdomain URL. -/
theorem c1_link_priority_amended_witness :
    (∃ a, processItem c1WitItem = .ok (some a)
      ∧ a.link = amendedLink c1WitItem.feedId c1WitPost c1WitCreator.username)
    ∧ amendedLink c1WitItem.feedId c1WitPost c1WitCreator.username
      = "https://alice.medium.com/my-slug" :=
  ⟨c1_link_priority_amended c1WitItem c1WitPost c1WitCreator rfl rfl rfl, rfl⟩

/-! Claim C2: title and author placeholders. -/

/-- Title exactly as claim C2 words it: `post.title` when present and
non-empty, else the literal `Untitled`. -/
def claimTitle (p : Post) : String :=
  match p.title.get with
  | some s => if s.isEmpty then "Untitled" else s
  | none => "Untitled"

/-- Author exactly as claim C2 words it: `post.creator.name` when present
and non-empty, else the literal `Unknown Author`. -/
def claimAuthor (p : Post) : String :=
  match (match p.creator with | .val c => c.name.get | _ => none) with
  | some s => if s.isEmpty then "Unknown Author" else s
  | none => "Unknown Author"

/-- Claim C2 amended: the placeholder applies exactly when the title key is
absent; a present key wins even with an empty or null value (a stored null
is emitted as JSON null). -/
def amendedTitle (p : Post) : Option String :=
  match p.title with
  | .absent => some "Untitled"
  | .null => none
  | .val s => some s

/-- Claim C2 amended for the author, given the creator dict resolved from a
non-null creator field (an absent creator resolves to the empty dict): the
placeholder applies exactly when the name key is absent. -/
def amendedAuthor (cd : Creator) : Option String :=
  match cd.name with
  | .absent => some "Unknown Author"
  | .null => none
  | .val s => some s

def c2CexPost : Post := { title := .val "", creator := .val { name := .val "" } }

def c2CexItem : Item := { post := .val c2CexPost }

/-- Claim C2 as stated fails: a present-but-empty title (and creator name)
passes through `.get` unchanged, so the code emits the empty string where
the claim demands the placeholders. -/
theorem c2_counterexample :
    processItem c2CexItem
      = .ok (some ⟨some "", some "", "Link construction failed (feedId: None, postId: None)"⟩)
    ∧ claimTitle c2CexPost = "Untitled"
    ∧ claimAuthor c2CexPost = "Unknown Author"
    ∧ (some "" : Option String) ≠ some "Untitled"
    ∧ (some "" : Option String) ≠ some "Unknown Author" :=
  ⟨rfl, rfl, rfl, by decide, by decide⟩

/-- Claim C2, amended: for every item whose post is a truthy object and
whose creator field resolves to a dict, the emitted article's title is
`post.title` whenever the title key is present (empty and null values
included), and `Untitled` exactly when it is absent; the author is
`creator.name` whenever the name key is present, and `Unknown Author`
exactly when it is absent (in particular when the whole creator is absent). -/
theorem c2_title_author_amended (item : Item) (p : Post) (cd : Creator)
    (hp : item.post = .val p) (hne : p.isEmptyDict = false)
    (hc : creatorDict p.creator = some cd) :
    ∃ a, processItem item = .ok (some a)
      ∧ a.title = amendedTitle p ∧ a.author = amendedAuthor cd := by
  have h : processItem item
      = .ok (some ⟨p.title.getD "Untitled", cd.name.getD "Unknown Author",
          buildLink item.feedId.get p cd⟩) := by
    simp [processItem, hp, hne, hc]
  refine ⟨_, h, ?_, ?_⟩
  · cases ht : p.title <;> simp [JField.getD, amendedTitle, ht]
  · cases hn : cd.name <;> simp [JField.getD, amendedAuthor, hn]

def c2WitPost : Post := { mediumUrl := .val "https://medium.com/x" }

def c2WitItem : Item := { post := .val c2WitPost }

/-- Witness for C2: the amended theorem applied to a concrete item with an
absent title and absent creator, where both placeholders evaluate. -/
theorem c2_title_author_amended_witness :
    (∃ a, processItem c2WitItem = .ok (some a)
      ∧ a.title = amendedTitle c2WitPost ∧ a.author = amendedAuthor {})
    ∧ amendedTitle c2WitPost = some "Untitled"
    ∧ amendedAuthor ({} : Creator) = some "Unknown Author" :=
  ⟨c2_title_author_amended c2WitItem c2WitPost {} rfl rfl rfl, rfl, rfl⟩

/-! Claim C3: skipping, ordering, and the non-empty-link invariant. -/

/-- The article an item contributes when its iteration does not raise. -/
def itemOutput (i : Item) : Option Article :=
  match processItem i with
  | .ok a? => a?
  | .error _ => none

/-- Wording of claim C3: the item has no post sub-object (the key is
absent, or its value is null). -/
def lacksPost (i : Item) : Prop := i.post = .absent ∨ i.post = .null

theorem processItem_skip (i : Item) (h : lacksPost i) : processItem i = .ok none := by
  rcases h with h | h <;> simp [processItem, h]

/-- Successful runs of `processItem`: the canonical shape of the article. -/
theorem processItem_ok_some_inv (i : Item) (a : Article)
    (h : processItem i = .ok (some a)) :
    ∃ p cd, i.post = .val p ∧ p.isEmptyDict = false
      ∧ creatorDict p.creator = some cd
      ∧ a = ⟨p.title.getD "Untitled", cd.name.getD "Unknown Author",
          buildLink i.feedId.get p cd⟩ := by
  cases hpost : i.post with
  | absent => simp [processItem, hpost] at h
  | null => simp [processItem, hpost] at h
  | val p =>
    cases hne : p.isEmptyDict with
    | true => simp [processItem, hpost, hne] at h
    | false =>
      cases hc : creatorDict p.creator with
      | none => simp [processItem, hpost, hne, hc] at h
      | some cd =>
        refine ⟨p, cd, rfl, hne, hc, ?_⟩
        simp [processItem, hpost, hne, hc] at h
        exact h.symm

theorem buildLink_ne_empty (f : Option String) (p : Post) (cd : Creator) :
    buildLink f p cd ≠ "" := by
  unfold buildLink
  cases hfb : pyTruthy (fallbackLink f p cd) with
  | true =>
    simp only [hfb, if_true]
    cases hl : fallbackLink f p cd with
    | none => rw [hl] at hfb; simp [pyTruthy] at hfb
    | some s =>
      rw [hl] at hfb
      rw [pyTruthy_some_iff] at hfb
      simpa [pyRepr_some] using hfb
  | false =>
    simp only [hfb, Bool.false_eq_true, if_false]
    apply prepend_ne_empty
    rw [ String.length_append, String.length_append, String.length_append]
    have h1 : "Link construction failed (feedId: ".length = 34 := rfl
    omega

theorem processItem_link_ne_empty (i : Item) (a : Article)
    (h : processItem i = .ok (some a)) : a.link ≠ "" := by
  obtain ⟨p, cd, _, _, _, ha⟩ := processItem_ok_some_inv i a h
  rw [ha]
  exact buildLink_ne_empty _ _ _

/-- A completed loop produces exactly the in-order `filterMap` of the
per-item outputs. -/
theorem processItems_ok_filterMap (l : List Item) (as : List Article)
    (h : processItems l = .ok as) : as = l.filterMap itemOutput := by
  induction l generalizing as with
  | nil =>
    simp [processItems] at h
    simp [h.symm]
  | cons i rest ih =>
    simp only [processItems] at h
    cases hpi : processItem i with
    | error e => simp [hpi] at h
    | ok a? =>
      simp only [hpi] at h
      cases hrest : processItems rest with
      | error e => simp [hrest] at h
      | ok tail =>
        simp only [hrest] at h
        have htail := ih tail hrest
        cases a? with
        | none =>
          simp only [Except.ok.injEq] at h
          rw [ List.filterMap_cons]
          simp only [itemOutput, hpi]
          rw [ h.symm]
          exact htail
        | some a =>
          simp only [Except.ok.injEq] at h
          rw [ List.filterMap_cons]
          simp only [itemOutput, hpi]
          rw [ h.symm, htail]

theorem length_filterMap_lt {α β : Type} (f : α → Option β) (l : List α) (i : α)
    (hi : i ∈ l) (hf : f i = none) : (l.filterMap f).length < l.length := by
  induction l with
  | nil => cases hi
  | cons j rest ih =>
    rcases List.mem_cons.mp hi with rfl | hmem
    · rw [ List.filterMap_cons]
      simp only [hf]
      have := List.length_filterMap_le f rest
      simp only [List.length_cons]
      omega
    · rw [ List.filterMap_cons]
      cases hj : f j with
      | none =>
        have := List.length_filterMap_le f rest
        simp only [List.length_cons]
        omega
      | some b =>
        simp only [List.length_cons, List.length_cons]
        exact Nat.succ_lt_succ (ih hmem)

/-- Claim C3: on every input list for which the loop completes, items
lacking a post sub-object are skipped silently (per-item result `ok none`,
no error), the output is the order-preserving `filterMap` of the input, its
length is at most the input length - strictly smaller when some item lacks
a post - and every emitted article has a non-empty link. -/
theorem c3_normalizer_invariants (l : List Item) (as : List Article)
    (h : processItems l = .ok as) :
    as = l.filterMap itemOutput
    ∧ as.length ≤ l.length
    ∧ ((∃ i ∈ l, lacksPost i) → as.length < l.length)
    ∧ (∀ i ∈ l, lacksPost i → processItem i = .ok none)
    ∧ (∀ a ∈ as, a.link ≠ "") := by
  have hfm := processItems_ok_filterMap l as h
  refine ⟨hfm, ?_, ?_, ?_, ?_⟩
  · rw [hfm]
    exact List.length_filterMap_le _ _
  · rintro ⟨i, hi, hlp⟩
    rw [hfm]
    exact length_filterMap_lt itemOutput l i hi (by simp [itemOutput, processItem_skip i hlp])
  · intro i _ hlp
    exact processItem_skip i hlp
  · intro a ha
    rw [hfm] at ha
    obtain ⟨i, hi, hio⟩ := List.mem_filterMap.mp ha
    have hpi : processItem i = .ok (some a) := by
      unfold itemOutput at hio
      cases hp2 : processItem i with
      | error e =>
        rw [hp2] at hio
        simp at hio
      | ok a? =>
        rw [hp2] at hio
        simp at hio
        rw [hio]
    exact processItem_link_ne_empty i a hpi

def c3WitItemA : Item := { feedId := .val "f0" }

def c3WitItemB : Item := { post := .val { mediumUrl := .val "https://medium.com/x" } }

def c3WitArticle : Article := ⟨some "Untitled", some "Unknown Author", "https://medium.com/x"⟩

/-- Witness for C3: a two-item list whose first item has no post produces
exactly the one in-order article, with a strictly smaller output list and a
non-empty link. -/
theorem c3_normalizer_invariants_witness :
    [c3WitArticle] = [c3WitItemA, c3WitItemB].filterMap itemOutput
    ∧ ([c3WitArticle].length < [c3WitItemA, c3WitItemB].length)
    ∧ c3WitArticle.link ≠ "" := by
  have h := c3_normalizer_invariants [c3WitItemA, c3WitItemB] [c3WitArticle] rfl
  exact ⟨h.1, h.2.2.1 ⟨c3WitItemA, by simp, Or.inl rfl⟩,
    h.2.2.2.2 c3WitArticle (by simp)⟩

/-! Claims C5-C8 and C10: the handler pipeline. -/

theorem validReqBody_parts (b : ReqBody) (hb : validReqBody b = true) :
    pyTruthy b.tagSlug.get = true ∧ pyTruthy b.mode.get = true
      ∧ valid_modes.contains (pyUpper (pyStrip (pyRepr b.mode.get))) = true := by
  simp only [validReqBody, Bool.and_eq_true] at hb
  exact ⟨hb.1.1, hb.1.2, hb.2⟩

theorem validReqBody_mem (b : ReqBody) (hb : validReqBody b = true) :
    pyTruthy b.tagSlug.get = true ∧ pyTruthy b.mode.get = true
      ∧ pyUpper (pyStrip (pyRepr b.mode.get)) ∈ valid_modes := by
  obtain ⟨h1, h2, h3⟩ := validReqBody_parts b hb
  exact ⟨h1, h2, by simpa using h3⟩

/-- A concrete request body that passes validation (and exercises the
strip-then-uppercase normalisation of the mode). -/
def stdBody : ReqBody := { tagSlug := .val "rust", mode := .val " hot " }

/-- Claim C5: with the API key configured, a request whose `tagSlug` or
`mode` is falsy (absent, null, or empty) is answered 400 with an error
naming the missing field, and a truthy mode that does not normalise
(strip, uppercase) into the six valid modes is answered 400 listing them.
The upstream outcome `u` is universally quantified and the response does
not depend on it: the rejection happens before any upstream call (the
`requests.post` of line 131 sits after the validation gates). -/
theorem c5_request_validation (key : String) (hkey : key.isEmpty = false)
    (b : ReqBody) (u : UpstreamResult) :
    (pyTruthy b.tagSlug.get = false →
      get_tag_feed_handler (some key) (.dict b) u
        = ⟨400, .err "Missing \x27tagSlug\x27 in request body."⟩)
    ∧ (pyTruthy b.tagSlug.get = true → pyTruthy b.mode.get = false →
      get_tag_feed_handler (some key) (.dict b) u
        = ⟨400, .err "Missing \x27mode\x27 in request body."⟩)
    ∧ (pyTruthy b.tagSlug.get = true → pyTruthy b.mode.get = true →
      valid_modes.contains (pyUpper (pyStrip (pyRepr b.mode.get))) = false →
      get_tag_feed_handler (some key) (.dict b) u
        = ⟨400, .err ("Invalid mode. Must be one of: "
            ++ String.intercalate ", " valid_modes)⟩) := by
  refine ⟨?_, ?_, ?_⟩
  · intro h1
    simp [get_tag_feed_handler, pyTruthy_some, hkey, h1]
  · intro h1 h2
    simp [get_tag_feed_handler, pyTruthy_some, hkey, h1, h2]
  · intro h1 h2 h3
    have h3m : pyUpper (pyStrip (pyRepr b.mode.get)) ∉ valid_modes := by simpa using h3
    simp [get_tag_feed_handler, pyTruthy_some, hkey, h1, h2, h3m]

/-- Witness for C5: the three validation rejections at concrete inputs. -/
theorem c5_request_validation_witness :
    get_tag_feed_handler (some "key") (.dict ⟨.absent, .absent⟩) .timeout
      = ⟨400, .err "Missing \x27tagSlug\x27 in request body."⟩
    ∧ get_tag_feed_handler (some "key") (.dict ⟨.val "rust", .absent⟩) .timeout
      = ⟨400, .err "Missing \x27mode\x27 in request body."⟩
    ∧ get_tag_feed_handler (some "key") (.dict ⟨.val "rust", .val "hottest"⟩) .timeout
      = ⟨400, .err ("Invalid mode. Must be one of: "
          ++ String.intercalate ", " valid_modes)⟩ :=
  ⟨(c5_request_validation "key" rfl ⟨.absent, .absent⟩ .timeout).1 rfl,
    (c5_request_validation "key" rfl ⟨.val "rust", .absent⟩ .timeout).2.1 rfl rfl,
    (c5_request_validation "key" rfl ⟨.val "rust", .val "hottest"⟩ .timeout).2.2
      rfl rfl (by decide)⟩

/-- Claim C6: for a configured key and a valid request body, an upstream
timeout is answered 504, any other network-level failure 503, an
unparseable upstream body 502, and an upstream HTTP error is passed
through with its own status - 503 exactly when no status is available.
Every such response carries a structured error body with `error` and
`details` fields. -/
theorem c6_upstream_error_mapping (key : String) (hkey : key.isEmpty = false)
    (b : ReqBody) (hb : validReqBody b = true) :
    (get_tag_feed_handler (some key) (.dict b) .timeout
      = ⟨504, .errDetails "Request to Medium API timed out."
          "The upstream server took too long to respond."⟩)
    ∧ (∀ d, get_tag_feed_handler (some key) (.dict b) (.netError d)
      = ⟨503, .errDetails "Network error connecting to Medium API. Check internet connection." d⟩)
    ∧ (∀ st d, get_tag_feed_handler (some key) (.dict b) (.httpError (some st) d)
      = ⟨st, .errDetails "Failed to communicate effectively with Medium API." d⟩)
    ∧ (∀ d, get_tag_feed_handler (some key) (.dict b) (.httpError none d)
      = ⟨503, .errDetails "Failed to communicate effectively with Medium API." d⟩)
    ∧ (∀ d, get_tag_feed_handler (some key) (.dict b) (.ok (.error d))
      = ⟨502, .errDetails "Invalid or unexpected response format from Medium." d⟩) := by
  obtain ⟨h1, h2, h3⟩ := validReqBody_mem b hb
  refine ⟨?_, ?_, ?_, ?_, ?_⟩ <;>
    · intros
      simp [get_tag_feed_handler, pyTruthy_some, hkey, h1, h2, h3]

/-- Witness for C6: the five upstream failure shapes at concrete inputs. -/
theorem c6_upstream_error_mapping_witness :
    get_tag_feed_handler (some "key") (.dict stdBody) .timeout
      = ⟨504, .errDetails "Request to Medium API timed out."
          "The upstream server took too long to respond."⟩
    ∧ get_tag_feed_handler (some "key") (.dict stdBody) (.netError "refused")
      = ⟨503, .errDetails "Network error connecting to Medium API. Check internet connection." "refused"⟩
    ∧ get_tag_feed_handler (some "key") (.dict stdBody) (.httpError (some 403) "403 Client Error")
      = ⟨403, .errDetails "Failed to communicate effectively with Medium API." "403 Client Error"⟩
    ∧ get_tag_feed_handler (some "key") (.dict stdBody) (.httpError none "no response")
      = ⟨503, .errDetails "Failed to communicate effectively with Medium API." "no response"⟩
    ∧ get_tag_feed_handler (some "key") (.dict stdBody) (.ok (.error "Expecting value"))
      = ⟨502, .errDetails "Invalid or unexpected response format from Medium." "Expecting value"⟩ := by
  have h := c6_upstream_error_mapping "key" rfl stdBody (by decide)
  exact ⟨h.1, h.2.1 "refused", h.2.2.1 403 "403 Client Error",
    h.2.2.2.1 "no response", h.2.2.2.2 "Expecting value"⟩

/-- Claim C7: a successfully parsed payload with a non-empty top-level
`errors` array is answered 400 with `details` equal to that array, even
though the upstream HTTP status was a success; with no `errors` key or an
empty array the handler proceeds to normalisation (whose response is a 200
or, on an internal exception, a 500 - never the 400 of this gate). -/
theorem c7_graphql_errors_gate (key : String) (hkey : key.isEmpty = false)
    (b : ReqBody) (hb : validReqBody b = true) (pl : Payload) :
    (∀ e es, pl.errors = .val (e :: es) →
      get_tag_feed_handler (some key) (.dict b) (.ok (.ok pl))
        = ⟨400, .errGraphQL "GraphQL error(s) received from Medium." (e :: es)⟩)
    ∧ ((pl.errors = .absent ∨ pl.errors = .val []) →
      get_tag_feed_handler (some key) (.dict b) (.ok (.ok pl))
          = normalize_and_respond pl
      ∧ ((normalize_and_respond pl).status = 200
          ∨ (normalize_and_respond pl).status = 500)) := by
  obtain ⟨h1, h2, h3⟩ := validReqBody_mem b hb
  constructor
  · intro e es he
    simp [get_tag_feed_handler, pyTruthy_some, hkey, h1, h2, h3, he]
  · intro hne
    constructor
    · rcases hne with h | h <;>
        simp [get_tag_feed_handler, pyTruthy_some, hkey, h1, h2, h3, h]
    · unfold normalize_and_respond
      cases hex : extractItems pl with
      | error e => simp [internal_error_resp]
      | ok items =>
        cases hpr : processItems items with
        | error e => simp [hpr, internal_error_resp]
        | ok arts => simp [hpr]

def c7WitPayloadErr : Payload := { errors := .val ["err one"] }

def c7WitPayloadOk : Payload := { errors := .val [] }

/-- Witness for C7: both sides of the gate at concrete payloads. -/
theorem c7_graphql_errors_gate_witness :
    get_tag_feed_handler (some "key") (.dict stdBody) (.ok (.ok c7WitPayloadErr))
      = ⟨400, .errGraphQL "GraphQL error(s) received from Medium." ["err one"]⟩
    ∧ get_tag_feed_handler (some "key") (.dict stdBody) (.ok (.ok c7WitPayloadOk))
      = normalize_and_respond c7WitPayloadOk :=
  ⟨(c7_graphql_errors_gate "key" rfl stdBody (by decide) c7WitPayloadErr).1
      "err one" [] rfl,
    ((c7_graphql_errors_gate "key" rfl stdBody (by decide) c7WitPayloadOk).2
      (Or.inr rfl)).1⟩

def c8CexPayload : Payload := { errors := .val ["boom"], data := .absent }

/-- Claim C8 as stated fails: a successfully parsed payload can have every
segment of `data.tagFeed.items` missing and still carry a non-empty
top-level `errors` array, which the handler answers with 400, not with a
200 empty article list. -/
theorem c8_counterexample :
    get_tag_feed_handler (some "key") (.dict stdBody) (.ok (.ok c8CexPayload))
      = ⟨400, .errGraphQL "GraphQL error(s) received from Medium." ["boom"]⟩
    ∧ Resp.mk 400 (.errGraphQL "GraphQL error(s) received from Medium." ["boom"])
      ≠ ⟨200, .articles []⟩ :=
  ⟨rfl, by decide⟩

/-- Claim C8, amended: for every successfully parsed payload that passes
the GraphQL-errors gate (no `errors` key, a null value, or an empty array),
if any segment of the `data.tagFeed.items` path is absent the item list
defaults to empty and the handler responds 200 with an empty `articles`
list rather than failing. -/
theorem c8_missing_path_amended (key : String) (hkey : key.isEmpty = false)
    (b : ReqBody) (hb : validReqBody b = true) (pl : Payload)
    (hng : pl.errors = .absent ∨ pl.errors = .null ∨ pl.errors = .val [])
    (hmiss : pl.data = .absent
      ∨ (∃ d, pl.data = .val d ∧ d.tagFeed = .absent)
      ∨ (∃ d tf, pl.data = .val d ∧ d.tagFeed = .val tf ∧ tf.items = .absent)) :
    get_tag_feed_handler (some key) (.dict b) (.ok (.ok pl))
      = ⟨200, .articles []⟩ := by
  obtain ⟨h1, h2, h3⟩ := validReqBody_mem b hb
  have hx : extractItems pl = .ok [] := by
    rcases hmiss with h | ⟨d, hd, ht⟩ | ⟨d, tf, hd, ht, hi⟩ <;>
      simp [extractItems, *]
  have hgate : get_tag_feed_handler (some key) (.dict b) (.ok (.ok pl))
      = normalize_and_respond pl := by
    rcases hng with h | h | h <;>
      simp [get_tag_feed_handler, pyTruthy_some, hkey, h1, h2, h3, h]
  rw [hgate]
  simp [normalize_and_respond, hx, processItems]

def c8WitPayload : Payload := { data := .val { tagFeed := .absent } }

/-- Witness for C8: a payload whose `data.tagFeed` is absent yields the 200
empty-articles response. -/
theorem c8_missing_path_amended_witness :
    get_tag_feed_handler (some "key") (.dict stdBody) (.ok (.ok c8WitPayload))
      = ⟨200, .articles []⟩ :=
  c8_missing_path_amended "key" rfl stdBody (by decide) c8WitPayload
    (Or.inl rfl) (Or.inr (Or.inl ⟨{ tagFeed := .absent }, rfl, rfl⟩))

theorem processItem_creator_null (i : Item) (p : Post)
    (hp : i.post = .val p) (hc : p.creator = .null) :
    processItem i = .error () := by
  have hne : p.isEmptyDict = false := by
    simp [Post.isEmptyDict, hc]
  simp [processItem, hp, hne, creatorDict, hc]

theorem processItems_error_of_mem (l : List Item) (i : Item) (hi : i ∈ l)
    (he : processItem i = .error ()) : processItems l = .error () := by
  induction l with
  | nil => cases hi
  | cons j rest ih =>
    rcases List.mem_cons.mp hi with rfl | hmem
    · simp [processItems, he]
    · cases hj : processItem j with
      | error e => simp [processItems, hj]
      | ok a? => simp [processItems, hj, ih hmem]

/-- Claim C10: when some item of the extracted list has a post whose
creator field is explicitly JSON null, the loop raises instead of emitting
a placeholder author, and the whole request is answered by the catch-all
with HTTP 500 and no articles. -/
theorem c10_null_creator_aborts (key : String) (hkey : key.isEmpty = false)
    (b : ReqBody) (hb : validReqBody b = true) (pl : Payload)
    (hng : pl.errors = .absent ∨ pl.errors = .null ∨ pl.errors = .val [])
    (items : List Item) (hx : extractItems pl = .ok items)
    (i : Item) (hi : i ∈ items) (p : Post)
    (hp : i.post = .val p) (hc : p.creator = .null) :
    processItems items = .error ()
    ∧ get_tag_feed_handler (some key) (.dict b) (.ok (.ok pl))
      = ⟨500, .errDetails "An unexpected internal server error occurred."
          "Please check server logs."⟩ := by
  obtain ⟨h1, h2, h3⟩ := validReqBody_mem b hb
  have hpe := processItems_error_of_mem items i hi (processItem_creator_null i p hp hc)
  refine ⟨hpe, ?_⟩
  have hgate : get_tag_feed_handler (some key) (.dict b) (.ok (.ok pl))
      = normalize_and_respond pl := by
    rcases hng with h | h | h <;>
      simp [get_tag_feed_handler, pyTruthy_some, hkey, h1, h2, h3, h]
  rw [hgate]
  simp [normalize_and_respond, hx, hpe, internal_error_resp]

def c10WitItem : Item := { feedId := .val "f1", post := .val { creator := .null } }

def c10WitPayload : Payload :=
  { data := .val { tagFeed := .val { items := .val [c10WitItem] } } }

/-- Witness for C10: one concrete item with a null creator aborts the
request with the 500 catch-all response. -/
theorem c10_null_creator_aborts_witness :
    processItems [c10WitItem] = .error ()
    ∧ get_tag_feed_handler (some "key") (.dict stdBody) (.ok (.ok c10WitPayload))
      = ⟨500, .errDetails "An unexpected internal server error occurred."
          "Please check server logs."⟩ :=
  c10_null_creator_aborts "key" rfl stdBody (by decide) c10WitPayload
    (Or.inl rfl) [c10WitItem] rfl c10WitItem (by simp) { creator := .null } rfl rfl

end Medium
